import Mathlib

/-!
Shallow embedding of `app/client/src/UITelemetry/PageLoadInstrumentation.ts`.

The TypeScript unit is a single class, `PageLoadInstrumentation`, whose mutable
instance fields we model as a Lean structure; each method becomes a function
from the instance state (and the event payload delivered by the browser) to the
updated instance state.  Timestamps (`performance.now()`, `DOMHighResTimeStamp`
fields) are modelled as `Int`; DOM/browser strings as `String`.

The spans produced through `startNestedSpan`/`span.end` are recorded in a ghost
field `emittedSpans`; the root span's `setAttributes`/`end` calls are recorded
in ghost fields `rootSpanAttrSets` and `rootSpanEnd`.  The span engine itself
(`generateTraces.ts`) is outside the unit under analysis; its end-once
behaviour is modelled from the spec (see `spanEnd`).
-/

/-- Models JavaScript `String.prototype.includes`: `strIncludes s sub` is true
iff `sub` occurs as a contiguous substring of `s`. -/
def strIncludes (s sub : String) : Bool :=
  decide (sub.data <:+: s.data)

/-- Models JavaScript template-literal interpolation of a `string | null`
value: `null` prints as the literal text `"null"`. -/
def jsTemplateNull : Option String → String
  | some s => s
  | none => "null"

/-- Models the JavaScript `x || dflt` idiom on a possibly-absent number field:
`undefined` and `0` (the falsy number) both yield the default. -/
def jsOrNum (v : Option Int) (dflt : Int) : Int :=
  match v with
  | some n => if n = 0 then dflt else n
  | none => dflt

/-- Models the JavaScript `x || dflt` idiom on a possibly-absent string field:
`undefined` and `""` (the falsy string) both yield the default. -/
def jsOrStr (v : Option String) (dflt : String) : String :=
  match v with
  | some s => if s = "" then dflt else s
  | none => dflt

/-- Source `kebabToScreamingSnakeCase`: a global regex replace of every dash
by an underscore, followed by `toUpperCase()`.
The global single-character regex replace is rendered as a character map, and
`toUpperCase` as `Char.toUpper` on each character (the inputs in this unit are
ASCII kebab-case entry names). -/
def kebabToScreamingSnakeCase (str : String) : String :=
  String.mk ((str.data.map fun c => if c = '-' then '_' else c).map Char.toUpper)

/-- A DOM element as consumed by `getElementName`: its `tagName`, `id`,
`className`, `data-testid` attribute (absent attribute = `none`, matching
`getAttribute` returning `null`), and parent element. -/
inductive DomElement : Type where
  | mk (tagName : String) (idAttr : String) (className : String)
       (dataTestId : Option String) (parentElement : Option DomElement)

def DomElement.tagName : DomElement → String
  | .mk t _ _ _ _ => t

def DomElement.idAttr : DomElement → String
  | .mk _ i _ _ _ => i

def DomElement.className : DomElement → String
  | .mk _ _ c _ _ => c

def DomElement.dataTestId : DomElement → Option String
  | .mk _ _ _ d _ => d

def DomElement.parentElement : DomElement → Option DomElement
  | .mk _ _ _ _ p => p

/-- Source `getElementName(element?, depth = 0)`: returns `""` for a missing
element or depth above 3; otherwise builds
`` `${tagName}${elementId}${className}:${testId}` `` (the `id` and `className`
parts guarded by JS truthiness, i.e. dropped when the string is empty;
`className` rendered as `"." + className.split(" ").join(".")`), recurses on
the parent with `depth + 1`, and returns
`` `${parentElementName} > ${elementName}` ``. -/
def getElementName : Option DomElement → Nat → String
  | none, _ => ""
  | some (.mk tagName idAttr classNameAttr dataTestId parentElement), depth =>
    if depth > 3 then ""
    else
      let elementTestId := jsTemplateNull dataTestId
      let className :=
        if classNameAttr = "" then ""
        else "." ++ String.intercalate "." (classNameAttr.splitOn " ")
      let elementId := if idAttr = "" then "" else "#" ++ idAttr
      let elementName := tagName ++ elementId ++ className ++ ":" ++ elementTestId
      let parentElementName := getElementName parentElement (depth + 1)
      parentElementName ++ " > " ++ elementName

/-- Keeps an element together with at most `n` of its ancestors, dropping every
deeper ancestor.  Used to state that `getElementName` never looks past the
depth bound. -/
def truncateAncestors : Nat → DomElement → DomElement
  | 0, .mk t i c d _ => .mk t i c d none
  | n + 1, .mk t i c d p => .mk t i c d (p.map (truncateAncestors n))

/-- A `PerformanceEntry` as consumed by `pushPaintTimingToSpan` (the
first-paint / first-contentful-paint entries delivered in FCP reports). -/
structure PaintEntry where
  name : String
  entryType : String
  startTime : Int
  deriving DecidableEq

/-- A `LargestContentfulPaint` entry as destructured by
`pushLcpTimingToSpan`. -/
structure LargestContentfulPaintEntry where
  element : Option DomElement
  entryType : String
  loadTime : Int
  renderTime : Int
  startTime : Int
  url : String

/-- A `PerformanceNavigationTiming | NavigationTimingPolyfillEntry` as
destructured by `pushNavigationTimingToSpan`.  Fields read with a cast to
`PerformanceNavigationTiming` followed by a `|| default` (absent on the
polyfill entry) are `Option`-valued here. -/
structure NavigationEntry where
  connectEnd : Int
  connectStart : Int
  domainLookupEnd : Int
  domainLookupStart : Int
  domComplete : Int
  domContentLoadedEventEnd : Int
  domContentLoadedEventStart : Int
  domInteractive : Int
  entryType : String
  fetchStart : Int
  loadEventEnd : Int
  loadEventStart : Int
  name : String
  redirectEnd : Int
  redirectStart : Int
  requestStart : Int
  responseEnd : Int
  responseStart : Int
  secureConnectionStart : Int
  startTime : Int
  navigationType : String
  unloadEventEnd : Int
  unloadEventStart : Int
  workerStart : Int
  decodedBodySize : Option Int
  encodedBodySize : Option Int
  initiatorType : Option String
  nextHopProtocol : Option String
  redirectCount : Option Int
  transferSize : Option Int
  deriving DecidableEq

/-- A `PerformanceResourceTiming` entry as destructured by
`pushResourceTimingToSpan` / keyed by `getResourceEntryKey`.  The two
platform-dependent fields read through an `any` cast
(`firstInterimResponseStart`, `renderBlockingStatus`) are `Option`-valued and
passed through as-is. -/
structure ResourceEntry where
  connectEnd : Int
  connectStart : Int
  decodedBodySize : Int
  domainLookupEnd : Int
  domainLookupStart : Int
  duration : Int
  encodedBodySize : Int
  entryType : String
  fetchStart : Int
  initiatorType : String
  name : String
  nextHopProtocol : String
  redirectEnd : Int
  redirectStart : Int
  requestStart : Int
  responseEnd : Int
  responseStart : Int
  secureConnectionStart : Int
  startTime : Int
  transferSize : Int
  workerStart : Int
  firstInterimResponseStart : Option Int
  renderBlockingStatus : Option String
  deriving DecidableEq

/-- The attribute object passed to `startNestedSpan` by
`pushLcpTimingToSpan`. -/
structure LcpSpanAttrs where
  url : String
  renderTime : Int
  element : String
  entryType : String
  loadTime : Int
  pageHiddenFor : Int
  deriving DecidableEq

/-- The attribute object passed to `startNestedSpan` by
`pushResourceTimingToSpan`. -/
structure ResourceSpanAttrs where
  connectEnd : Int
  connectStart : Int
  decodedBodySize : Int
  domainLookupEnd : Int
  domainLookupStart : Int
  encodedBodySize : Int
  entryType : String
  fetchStart : Int
  firstInterimResponseStart : Option Int
  initiatorType : String
  nextHopProtocol : String
  redirectEnd : Int
  redirectStart : Int
  requestStart : Int
  responseEnd : Int
  responseStart : Int
  resourceDuration : Int
  secureConnectionStart : Int
  transferSize : Int
  url : String
  workerStart : Int
  renderBlockingStatus : Option String
  deriving DecidableEq

/-- The attribute object passed to `rootSpan.setAttributes` by
`pushNavigationTimingToSpan`. -/
structure NavigationSpanAttrs where
  connectEnd : Int
  connectStart : Int
  decodedBodySize : Int
  domComplete : Int
  domContentLoadedEventEnd : Int
  domContentLoadedEventStart : Int
  domInteractive : Int
  domainLookupEnd : Int
  domainLookupStart : Int
  encodedBodySize : Int
  entryType : String
  fetchStart : Int
  initiatorType : String
  loadEventEnd : Int
  loadEventStart : Int
  nextHopProtocol : String
  redirectCount : Int
  redirectEnd : Int
  redirectStart : Int
  requestStart : Int
  responseEnd : Int
  responseStart : Int
  secureConnectionStart : Int
  navigationStartTime : Int
  transferSize : Int
  navigationType : String
  url : String
  unloadEventEnd : Int
  unloadEventStart : Int
  workerStart : Int
  deriving DecidableEq

/-- The attributes carried by a nested span: `{}` for paint spans, the LCP
attribute object for content-paint spans, the resource attribute object for
resource spans. -/
inductive SpanAttrs : Type where
  | empty : SpanAttrs
  | lcp : LcpSpanAttrs → SpanAttrs
  | resource : ResourceSpanAttrs → SpanAttrs
  deriving DecidableEq

/-- A nested span as created by `startNestedSpan(name, this.rootSpan, attrs,
startOffset)` and immediately ended with `span.end(endTime)`.  Every call in
this unit passes `this.rootSpan` as the parent, recorded in
`parentIsRoot`. -/
structure SpanData where
  name : String
  parentIsRoot : Bool
  attrs : SpanAttrs
  startOffset : Int
  endTime : Int
  deriving DecidableEq

/-- Models the result of `pushPaintTimingToSpan(entry)`:
`startNestedSpan(kebabToScreamingSnakeCase(entry.name), this.rootSpan, {}, 0)`
followed by `paintSpan.end(entry.startTime)`. -/
def pushPaintTimingToSpan (entry : PaintEntry) : SpanData :=
  { name := kebabToScreamingSnakeCase entry.name
    parentIsRoot := true
    attrs := SpanAttrs.empty
    startOffset := 0
    endTime := entry.startTime }

/-- Models the result of `pushLcpTimingToSpan(entry)`:
`startNestedSpan(kebabToScreamingSnakeCase(entryType), this.rootSpan, attrs, 0)`
followed by `lcpSpan.end(startTime)`, where `attrs` carries the url, render
time, element path (via `getElementName(element)`, default depth 0), entry
type, load time, and the instance's current `pageHiddenFor`. -/
def pushLcpTimingToSpan (pageHiddenFor : Int) (entry : LargestContentfulPaintEntry) :
    SpanData :=
  { name := kebabToScreamingSnakeCase entry.entryType
    parentIsRoot := true
    attrs := SpanAttrs.lcp
      { url := entry.url
        renderTime := entry.renderTime
        element := getElementName entry.element 0
        entryType := entry.entryType
        loadTime := entry.loadTime
        pageHiddenFor := pageHiddenFor }
    startOffset := 0
    endTime := entry.startTime }

/-- Models the result of `pushResourceTimingToSpan(entry)`:
`startNestedSpan(entry.name, this.rootSpan, attrs, entry.startTime)` followed
by `resourceSpan.end(entry.startTime + entry.responseEnd)`. -/
def pushResourceTimingToSpan (entry : ResourceEntry) : SpanData :=
  { name := entry.name
    parentIsRoot := true
    attrs := SpanAttrs.resource
      { connectEnd := entry.connectEnd
        connectStart := entry.connectStart
        decodedBodySize := entry.decodedBodySize
        domainLookupEnd := entry.domainLookupEnd
        domainLookupStart := entry.domainLookupStart
        encodedBodySize := entry.encodedBodySize
        entryType := entry.entryType
        fetchStart := entry.fetchStart
        firstInterimResponseStart := entry.firstInterimResponseStart
        initiatorType := entry.initiatorType
        nextHopProtocol := entry.nextHopProtocol
        redirectEnd := entry.redirectEnd
        redirectStart := entry.redirectStart
        requestStart := entry.requestStart
        responseEnd := entry.responseEnd
        responseStart := entry.responseStart
        resourceDuration := entry.duration
        secureConnectionStart := entry.secureConnectionStart
        transferSize := entry.transferSize
        url := entry.name
        workerStart := entry.workerStart
        renderBlockingStatus := entry.renderBlockingStatus }
    startOffset := entry.startTime
    endTime := entry.startTime + entry.responseEnd }

/-- Source `getResourceEntryKey(entry)`:
`` `${entry.name}:${entry.startTime}:${entry.entryType}` ``. -/
def getResourceEntryKey (entry : ResourceEntry) : String :=
  entry.name ++ ":" ++ toString entry.startTime ++ ":" ++ entry.entryType

/-- Source `getResourcesToTrack(resources)`: keeps the entries whose `name`
contains none of the configured `ignoreResourceUrls` substrings. -/
def getResourcesToTrack (ignoreResourceUrls : List String)
    (resources : List ResourceEntry) : List ResourceEntry :=
  resources.filter fun entry =>
    ! ignoreResourceUrls.any fun ignoreUrl => strIncludes entry.name ignoreUrl

/-- The attribute object built by `pushNavigationTimingToSpan` and passed to
`this.rootSpan.setAttributes`, with the `|| 0`, `|| ""` and `|| "navigation"`
defaults applied to the fields absent from a polyfill entry. -/
def navigationSpanAttrs (entry : NavigationEntry) : NavigationSpanAttrs :=
  { connectEnd := entry.connectEnd
    connectStart := entry.connectStart
    decodedBodySize := jsOrNum entry.decodedBodySize 0
    domComplete := entry.domComplete
    domContentLoadedEventEnd := entry.domContentLoadedEventEnd
    domContentLoadedEventStart := entry.domContentLoadedEventStart
    domInteractive := entry.domInteractive
    domainLookupEnd := entry.domainLookupEnd
    domainLookupStart := entry.domainLookupStart
    encodedBodySize := jsOrNum entry.encodedBodySize 0
    entryType := entry.entryType
    fetchStart := entry.fetchStart
    initiatorType := jsOrStr entry.initiatorType "navigation"
    loadEventEnd := entry.loadEventEnd
    loadEventStart := entry.loadEventStart
    nextHopProtocol := jsOrStr entry.nextHopProtocol ""
    redirectCount := jsOrNum entry.redirectCount 0
    redirectEnd := entry.redirectEnd
    redirectStart := entry.redirectStart
    requestStart := entry.requestStart
    responseEnd := entry.responseEnd
    responseStart := entry.responseStart
    secureConnectionStart := entry.secureConnectionStart
    navigationStartTime := entry.startTime
    transferSize := jsOrNum entry.transferSize 0
    navigationType := entry.navigationType
    url := entry.name
    unloadEventEnd := entry.unloadEventEnd
    unloadEventStart := entry.unloadEventStart
    workerStart := entry.workerStart }

/-- Modelled from the spec: the span engine (`startRootSpan`, `startNestedSpan`
and `span.end`, provided by `generateTraces.ts` and the tracer client, which
are not part of this unit's source).  Per the spec a span's end time is set
exactly once in effect: a second `end` call on an already-ended span is
discarded and leaves the first end time in place.  `current` is the root
span's end state (`none` = not yet ended); `t` is the end timestamp argument
(`none` models a zero-argument `end()`, i.e. "end now"). -/
def spanEnd (current : Option (Option Int)) (t : Option Int) : Option (Option Int) :=
  match current with
  | some e => some e
  | none => some t

/-- The mutable instance fields of class `PageLoadInstrumentation`, plus ghost
observation fields.  `rootSpanEnd` records the effective end state of the root
span; `rootSpanAttrSets` records the `rootSpan.setAttributes` calls in order;
`emittedSpans` records every nested span created (and immediately ended), in
order.  `resourceEntryPollTimeout` holds the id of the currently scheduled
poll timer (`none` = no timer armed); outside a running callback it coincides
with the armed timer, so a value of `some id` after a method returns means a
poll is still scheduled. -/
structure PageLoadInstrumentation where
  resourceTimingObserverConnected : Bool
  ignoreResourceUrls : List String
  pageLastHiddenAt : Int
  pageHiddenFor : Int
  wasNavigationEntryPushed : Bool
  resourceEntriesSet : List String
  resourceEntryPollTimeout : Option Nat
  rootSpanEnd : Option (Option Int)
  rootSpanAttrSets : List NavigationSpanAttrs
  emittedSpans : List SpanData
  deriving DecidableEq

/-- The constructor: stores `ignoreResourceUrls` and starts the root span
(`startRootSpan("PAGE_LOAD", {}, 0)` — not yet ended, no attributes); all
other fields take their declared initial values. -/
def mkPageLoadInstrumentation (ignoreResourceUrls : List String) :
    PageLoadInstrumentation :=
  { resourceTimingObserverConnected := false
    ignoreResourceUrls := ignoreResourceUrls
    pageLastHiddenAt := 0
    pageHiddenFor := 0
    wasNavigationEntryPushed := false
    resourceEntriesSet := []
    resourceEntryPollTimeout := none
    rootSpanEnd := none
    rootSpanAttrSets := []
    emittedSpans := [] }

/-- The page visibility states distinguished by the listener installed in
`addVisibilityChangeListener` (`hidden` vs everything else). -/
inductive VisibilityState : Type where
  | hidden : VisibilityState
  | visible : VisibilityState
  deriving DecidableEq

/-- The `visibilitychange` listener installed by
`addVisibilityChangeListener`: on `hidden`, stores `performance.now()` in
`pageLastHiddenAt`; otherwise stores `now - pageLastHiddenAt` in
`pageHiddenFor`.  `now` is the value of `performance.now()` when the event
fires. -/
def onVisibilityChange (self : PageLoadInstrumentation)
    (visibilityState : VisibilityState) (now : Int) : PageLoadInstrumentation :=
  if visibilityState = VisibilityState.hidden then
    { self with pageLastHiddenAt := now }
  else
    { self with pageHiddenFor := now - self.pageLastHiddenAt }

/-- Source `pushNavigationTimingToSpan(entry)`: sets the navigation attribute
object on the root span, then ends the root span at
`entry.domContentLoadedEventEnd`. -/
def pushNavigationTimingToSpan (self : PageLoadInstrumentation)
    (entry : NavigationEntry) : PageLoadInstrumentation :=
  { self with
    rootSpanAttrSets := self.rootSpanAttrSets ++ [navigationSpanAttrs entry]
    rootSpanEnd := spanEnd self.rootSpanEnd (some entry.domContentLoadedEventEnd) }

/-- The report object delivered to `onLCPReport`: the
`attribution.lcpEntry` field (possibly absent). -/
structure LCPReport where
  lcpEntry : Option LargestContentfulPaintEntry

/-- The report object delivered to `onFCPReport`: the `attribution.fcpEntry`
and `attribution.navigationEntry` fields (each possibly absent). -/
structure FCPReport where
  fcpEntry : Option PaintEntry
  navigationEntry : Option NavigationEntry

/-- Source `onLCPReport(metric)`: if the report carries an `lcpEntry`, emits
the content-paint span. -/
def onLCPReport (self : PageLoadInstrumentation) (metric : LCPReport) :
    PageLoadInstrumentation :=
  match metric.lcpEntry with
  | some lcpEntry =>
    { self with
      emittedSpans := self.emittedSpans ++ [pushLcpTimingToSpan self.pageHiddenFor lcpEntry] }
  | none => self

/-- Source `onFCPReport(metric)`: if the report carries a `navigationEntry`
and `wasNavigationEntryPushed` is still false, forwards it to
`pushNavigationTimingToSpan` and sets the flag; then, if the report carries an
`fcpEntry`, emits the paint span. -/
def onFCPReport (self : PageLoadInstrumentation) (metric : FCPReport) :
    PageLoadInstrumentation :=
  let self1 :=
    match metric.navigationEntry, self.wasNavigationEntryPushed with
    | some navigationEntry, false =>
      { pushNavigationTimingToSpan self navigationEntry with
        wasNavigationEntryPushed := true }
    | _, _ => self
  match metric.fcpEntry with
  | some fcpEntry =>
    { self1 with emittedSpans := self1.emittedSpans ++ [pushPaintTimingToSpan fcpEntry] }
  | none => self1

/-- The `forEach` body used by the `PerformanceObserver` callback: emit the
span for one (already filtered) resource entry. -/
def observerEmitStep (s : PageLoadInstrumentation) (entry : ResourceEntry) :
    PageLoadInstrumentation :=
  { s with emittedSpans := s.emittedSpans ++ [pushResourceTimingToSpan entry] }

/-- The `PerformanceObserver` callback installed by `observeResourceTimings`
(strategy A): filters the delivered batch through `getResourcesToTrack` and
emits one span per surviving entry. -/
def observeResourceTimingsCallback (self : PageLoadInstrumentation)
    (entries : List ResourceEntry) : PageLoadInstrumentation :=
  (getResourcesToTrack self.ignoreResourceUrls entries).foldl observerEmitStep self

/-- The `forEach` body of `pollResourceTimingEntries`: computes
`getResourceEntryKey(entry)`; when the key is not yet in
`resourceEntriesSet`, emits the resource span and records the key. -/
def pollDedupStep (s : PageLoadInstrumentation) (entry : ResourceEntry) :
    PageLoadInstrumentation :=
  let key := getResourceEntryKey entry
  if s.resourceEntriesSet.contains key then s
  else
    { s with
      emittedSpans := s.emittedSpans ++ [pushResourceTimingToSpan entry]
      resourceEntriesSet := s.resourceEntriesSet ++ [key] }

/-- Source `pollResourceTimingEntries()` (strategy B): clears any previously
scheduled poll timer, enumerates the currently buffered resource entries
(`resources`, the result of `performance.getEntriesByType("resource")`),
filters them through `getResourcesToTrack`, emits a span for every entry whose
key is not yet in `resourceEntriesSet` (adding the key), and finally re-arms
the poll timer (`setTimeout(..., 5000)` returning `newTimerId`). -/
def pollResourceTimingEntries (self : PageLoadInstrumentation)
    (resources : List ResourceEntry) (newTimerId : Nat) : PageLoadInstrumentation :=
  let self1 :=
    match self.resourceEntryPollTimeout with
    | some _ => { self with resourceEntryPollTimeout := none }
    | none => self
  let self2 :=
    (getResourcesToTrack self1.ignoreResourceUrls resources).foldl pollDedupStep self1
  { self2 with resourceEntryPollTimeout := some newTimerId }

/-- Source `disable()`: disconnects the `PerformanceObserver` when one was
created, then calls `this.rootSpan.end()` (the zero-argument form).  Note that
it does not touch `resourceEntryPollTimeout`. -/
def disable (self : PageLoadInstrumentation) : PageLoadInstrumentation :=
  let self1 :=
    if self.resourceTimingObserverConnected then
      { self with resourceTimingObserverConnected := false }
    else self
  { self1 with rootSpanEnd := spanEnd self1.rootSpanEnd none }

/-- Folds a sequence of FCP report callbacks over the instance, in delivery
order. -/
def processFCPReports (self : PageLoadInstrumentation) (reports : List FCPReport) :
    PageLoadInstrumentation :=
  reports.foldl onFCPReport self

/-- Folds a sequence of poll cycles over the instance, in firing order; each
cycle is the list of resource entries enumerated by that cycle.  The timer id
returned by `setTimeout` is irrelevant to span emission, so every cycle uses
id `0`. -/
def processPollCycles (self : PageLoadInstrumentation)
    (cycles : List (List ResourceEntry)) : PageLoadInstrumentation :=
  cycles.foldl (fun s resources => pollResourceTimingEntries s resources 0) self

/-- The dedup key of an emitted resource span, read back from the span record;
agrees with `getResourceEntryKey` on the entry the span was built from. -/
def emittedSpanKey (span : SpanData) : String :=
  match span.attrs with
  | SpanAttrs.resource a =>
    span.name ++ ":" ++ toString span.startOffset ++ ":" ++ a.entryType
  | _ => span.name

/-- A concrete navigation-timing entry used in witnesses. -/
def sampleNavigationEntry : NavigationEntry :=
  { connectEnd := 12
    connectStart := 10
    domainLookupEnd := 9
    domainLookupStart := 8
    domComplete := 400
    domContentLoadedEventEnd := 320
    domContentLoadedEventStart := 300
    domInteractive := 250
    entryType := "navigation"
    fetchStart := 5
    loadEventEnd := 450
    loadEventStart := 440
    name := "https://x/"
    redirectEnd := 0
    redirectStart := 0
    requestStart := 15
    responseEnd := 80
    responseStart := 40
    secureConnectionStart := 11
    startTime := 0
    navigationType := "navigate"
    unloadEventEnd := 0
    unloadEventStart := 0
    workerStart := 0
    decodedBodySize := some 1000
    encodedBodySize := some 600
    initiatorType := some "navigation"
    nextHopProtocol := some "h2"
    redirectCount := some 0
    transferSize := some 700 }

/-- A concrete resource-timing entry used in witnesses. -/
def sampleResourceEntryA : ResourceEntry :=
  { connectEnd := 2
    connectStart := 1
    decodedBodySize := 100
    domainLookupEnd := 1
    domainLookupStart := 1
    duration := 30
    encodedBodySize := 80
    entryType := "resource"
    fetchStart := 1
    initiatorType := "script"
    name := "https://x/static/bar.js"
    nextHopProtocol := "h2"
    redirectEnd := 0
    redirectStart := 0
    requestStart := 3
    responseEnd := 30
    responseStart := 20
    secureConnectionStart := 1
    startTime := 10
    transferSize := 90
    workerStart := 0
    firstInterimResponseStart := none
    renderBlockingStatus := some "non-blocking" }

/-- A second concrete resource-timing entry, with a different identity key. -/
def sampleResourceEntryB : ResourceEntry :=
  { sampleResourceEntryA with
    name := "https://x/static/baz.css"
    startTime := 25
    initiatorType := "link"
    entryType := "resource" }

/-- A concrete first-contentful-paint `PerformanceEntry` as the browser
delivers it: `entryType` is `"paint"` while `name` is the kebab-case metric
name. -/
def fcpPaintEntrySample : PaintEntry :=
  { name := "first-contentful-paint"
    entryType := "paint"
    startTime := 5 }

/-- A concrete DOM element with a `data-testid`, nested in a chain of
ancestors deeper than the naming depth bound. -/
def sampleAncestorChain : DomElement :=
  DomElement.mk "HTML" "" "" none
    (some (DomElement.mk "BODY" "" "" none
      (some (DomElement.mk "DIV" "root" "app" none
        (some (DomElement.mk "DIV" "" "panel wide" (some "panel-id") none))))))

/-- A ten-deep chain of ancestors above a leaf element, for the depth-bound
witness. -/
def deepChain : Nat → DomElement
  | 0 => DomElement.mk "SPAN" "leaf" "" (some "leaf-test") none
  | n + 1 =>
    DomElement.mk ("DIV" ++ toString n) "" "" none (some (deepChain n))

/-- A concrete element with no `data-testid` attribute. -/
def sampleElementNoTestId : DomElement :=
  DomElement.mk "DIV" "" "" none none

/-- C5: for every visibility-change sequence, a transition to hidden stores the
current time in `pageLastHiddenAt`, and the following transition to visible
stores exactly `now - pageLastHiddenAt` in `pageHiddenFor` (e.g. hidden at 100
and visible at 150 yields 50); a later hide/show cycle overwrites the stored
value rather than accumulating into it, whatever the prior state was. -/
theorem hiddenDuration_mostRecentInterval (self : PageLoadInstrumentation)
    (t1 t2 t3 t4 : Int) :
    (onVisibilityChange self VisibilityState.hidden t1).pageLastHiddenAt = t1 ∧
    (onVisibilityChange (onVisibilityChange self VisibilityState.hidden t1)
        VisibilityState.visible t2).pageHiddenFor = t2 - t1 ∧
    (onVisibilityChange (onVisibilityChange (onVisibilityChange (onVisibilityChange
        self VisibilityState.hidden t1) VisibilityState.visible t2)
        VisibilityState.hidden t3) VisibilityState.visible t4).pageHiddenFor
      = t4 - t3 ∧
    (onVisibilityChange (onVisibilityChange self VisibilityState.hidden 100)
        VisibilityState.visible 150).pageHiddenFor = 50 := by
  refine ⟨rfl, rfl, rfl, ?_⟩
  simp [onVisibilityChange]

/-- C6: every resource-timing entry converted to a span yields a nested span
named after the resource URL, parented to the root span, starting at the
entry's `startTime` and ending at `entry.startTime + entry.responseEnd`. -/
theorem resourceSpan_construction (entry : ResourceEntry) :
    (pushResourceTimingToSpan entry).name = entry.name ∧
    (pushResourceTimingToSpan entry).parentIsRoot = true ∧
    (pushResourceTimingToSpan entry).startOffset = entry.startTime ∧
    (pushResourceTimingToSpan entry).endTime = entry.startTime + entry.responseEnd :=
  ⟨rfl, rfl, rfl, rfl⟩

/-- C7 counterexample: for a first-contentful-paint entry as the browser
delivers it (`name = "first-contentful-paint"`, `entryType = "paint"`), the
emitted span's name is derived from the entry's `name`, not from its
`entryType`: it is `"FIRST_CONTENTFUL_PAINT"`, not `"PAINT"`, refuting the
claim that the span name is the entry's type converted to upper snake case. -/
theorem paintSpanName_notFromEntryType :
    (pushPaintTimingToSpan fcpPaintEntrySample).name ≠
      kebabToScreamingSnakeCase fcpPaintEntrySample.entryType := by
  decide

/-- C7 amended: for every paint entry the span's name is the entry's
kebab-case `name` converted to upper snake case, and for every
largest-contentful-paint entry it is the entry's kebab-case `entryType` so
converted (every dash replaced by an underscore and all letters uppercased,
e.g. `largest-contentful-paint` becomes `LARGEST_CONTENTFUL_PAINT`); in both
cases the span's end time equals the entry's `startTime`, a zero-duration
point-in-time marker. -/
theorem paintSpan_nameAndEndTime (pageHiddenFor : Int) (p : PaintEntry)
    (l : LargestContentfulPaintEntry) :
    (pushPaintTimingToSpan p).name = kebabToScreamingSnakeCase p.name ∧
    (pushPaintTimingToSpan p).endTime = p.startTime ∧
    (pushLcpTimingToSpan pageHiddenFor l).name = kebabToScreamingSnakeCase l.entryType ∧
    (pushLcpTimingToSpan pageHiddenFor l).endTime = l.startTime ∧
    kebabToScreamingSnakeCase "largest-contentful-paint" = "LARGEST_CONTENTFUL_PAINT" ∧
    kebabToScreamingSnakeCase "first-contentful-paint" = "FIRST_CONTENTFUL_PAINT" :=
  ⟨rfl, rfl, rfl, rfl, by decide, by decide⟩

/-- C3: ending the root span is exactly-once in effect: calling `disable()`
when the root span has already been ended (in particular, ended by
navigation-timing arrival at `domContentLoadedEventEnd`) leaves the already
set end time unchanged; the second `end` attempt is discarded by the span
engine rather than raising. -/
theorem rootSpanEnd_setOnce_disableIdempotent :
    (∀ (self : PageLoadInstrumentation) (e : Option Int),
      self.rootSpanEnd = some e → (disable self).rootSpanEnd = some e) ∧
    (∀ (self : PageLoadInstrumentation) (entry : NavigationEntry),
      self.rootSpanEnd = none →
        (disable (pushNavigationTimingToSpan self entry)).rootSpanEnd
          = some (some entry.domContentLoadedEventEnd)) := by
  constructor
  · intro self e h
    unfold disable
    split <;> simp [spanEnd, h]
  · intro self entry h
    unfold disable pushNavigationTimingToSpan
    split <;> simp [spanEnd, h]

/-- Witness for C3 at concrete inputs: a root span ended at time 320 keeps end
time 320 across `disable()`, both for a directly-ended state and for the state
produced by navigation-timing arrival. -/
theorem rootSpanEnd_setOnce_disableIdempotent_witness :
    (disable { mkPageLoadInstrumentation [] with rootSpanEnd := some (some 320) }).rootSpanEnd
      = some (some 320) ∧
    (disable (pushNavigationTimingToSpan (mkPageLoadInstrumentation [])
        sampleNavigationEntry)).rootSpanEnd = some (some 320) :=
  ⟨rootSpanEnd_setOnce_disableIdempotent.1
      { mkPageLoadInstrumentation [] with rootSpanEnd := some (some 320) } (some 320) rfl,
    rootSpanEnd_setOnce_disableIdempotent.2 (mkPageLoadInstrumentation [])
      sampleNavigationEntry rfl⟩

/-- Once `wasNavigationEntryPushed` is set, any further sequence of FCP
reports leaves the navigation attribution (attribute sets and root-span end)
untouched. -/
theorem processFCPReports_flagTrue (reports : List FCPReport) :
    ∀ self : PageLoadInstrumentation, self.wasNavigationEntryPushed = true →
      (processFCPReports self reports).wasNavigationEntryPushed = true ∧
      (processFCPReports self reports).rootSpanAttrSets = self.rootSpanAttrSets ∧
      (processFCPReports self reports).rootSpanEnd = self.rootSpanEnd := by
  induction reports with
  | nil => exact fun self h => ⟨h, rfl, rfl⟩
  | cons m tl ih =>
    intro self h
    have hstep : (onFCPReport self m).wasNavigationEntryPushed = true ∧
        (onFCPReport self m).rootSpanAttrSets = self.rootSpanAttrSets ∧
        (onFCPReport self m).rootSpanEnd = self.rootSpanEnd := by
      cases hn : m.navigationEntry <;> cases hf : m.fcpEntry <;>
        simp [onFCPReport, hn, hf, h]
    obtain ⟨h1, h2, h3⟩ := hstep
    have hres := ih (onFCPReport self m) h1
    have hfold : processFCPReports self (m :: tl)
        = processFCPReports (onFCPReport self m) tl := rfl
    rw [hfold]
    exact ⟨hres.1, by rw [hres.2.1, h2], by rw [hres.2.2, h3]⟩

/-- From a state where navigation timing has not yet been recorded and the
root span is not yet ended, a sequence of FCP reports records exactly the
first carried navigation entry (if any): one attribute set derived from it and
one root-span end at its `domContentLoadedEventEnd`. -/
theorem processFCPReports_firstNav (reports : List FCPReport) :
    ∀ self : PageLoadInstrumentation,
      self.wasNavigationEntryPushed = false → self.rootSpanEnd = none →
      (processFCPReports self reports).rootSpanAttrSets
        = self.rootSpanAttrSets ++
          ((reports.filterMap FCPReport.navigationEntry).head?.elim []
            fun n => [navigationSpanAttrs n]) ∧
      (processFCPReports self reports).rootSpanEnd
        = (reports.filterMap FCPReport.navigationEntry).head?.elim none
            (fun n => some (some n.domContentLoadedEventEnd)) := by
  induction reports with
  | nil => intro self hflag hend; simp [processFCPReports, hend]
  | cons m tl ih =>
    intro self hflag hend
    have hfold : processFCPReports self (m :: tl)
        = processFCPReports (onFCPReport self m) tl := rfl
    cases hn : m.navigationEntry with
    | none =>
      have hstep : (onFCPReport self m).wasNavigationEntryPushed = false ∧
          (onFCPReport self m).rootSpanAttrSets = self.rootSpanAttrSets ∧
          (onFCPReport self m).rootSpanEnd = none := by
        cases hf : m.fcpEntry <;> simp [onFCPReport, hn, hf, hflag, hend]
      obtain ⟨h1, h2, h3⟩ := hstep
      have hres := ih (onFCPReport self m) h1 h3
      rw [hfold]
      constructor
      · rw [hres.1, h2]
        simp [List.filterMap_cons, hn]
      · rw [hres.2]
        simp [List.filterMap_cons, hn]
    | some nav =>
      have hstep : (onFCPReport self m).wasNavigationEntryPushed = true ∧
          (onFCPReport self m).rootSpanAttrSets
            = self.rootSpanAttrSets ++ [navigationSpanAttrs nav] ∧
          (onFCPReport self m).rootSpanEnd
            = some (some nav.domContentLoadedEventEnd) := by
        cases hf : m.fcpEntry <;>
          simp [onFCPReport, pushNavigationTimingToSpan, spanEnd, hn, hf, hflag, hend]
      obtain ⟨h1, h2, h3⟩ := hstep
      have hres := processFCPReports_flagTrue tl (onFCPReport self m) h1
      rw [hfold]
      constructor
      · rw [hres.2.1, h2]
        simp [List.filterMap_cons, hn]
      · rw [hres.2.2, h3]
        simp [List.filterMap_cons, hn]

/-- C1: for every sequence of FCP report callbacks delivered to a freshly
constructed instrumentation, the navigation-timing effect — setting the
navigation attributes on the root span and ending the root span — happens at
most once in total: the attribute sets and the root-span end are exactly those
derived from the first report carrying a navigation entry (and absent when no
report carries one); every later report carrying a navigation entry is a no-op
for navigation attribution, and at most one attribute set is ever recorded. -/
theorem navigationTiming_recordedOnce_firstReport (ignore : List String)
    (reports : List FCPReport) :
    (processFCPReports (mkPageLoadInstrumentation ignore) reports).rootSpanAttrSets
      = ((reports.filterMap FCPReport.navigationEntry).head?.elim []
          fun n => [navigationSpanAttrs n]) ∧
    (processFCPReports (mkPageLoadInstrumentation ignore) reports).rootSpanEnd
      = (reports.filterMap FCPReport.navigationEntry).head?.elim none
          (fun n => some (some n.domContentLoadedEventEnd)) ∧
    (processFCPReports (mkPageLoadInstrumentation ignore) reports).rootSpanAttrSets.length
      ≤ 1 := by
  obtain ⟨h1, h2⟩ :=
    processFCPReports_firstNav reports (mkPageLoadInstrumentation ignore) rfl rfl
  refine ⟨by simpa [mkPageLoadInstrumentation] using h1, h2, ?_⟩
  cases hh : (reports.filterMap FCPReport.navigationEntry).head? <;>
    rw [hh] at h1 <;> rw [h1] <;> simp [mkPageLoadInstrumentation]

/-- The key read back from an emitted resource span agrees with the key the
dedup set stores for the entry the span was built from. -/
theorem emittedSpanKey_pushResourceTimingToSpan (e : ResourceEntry) :
    emittedSpanKey (pushResourceTimingToSpan e) = getResourceEntryKey e := rfl

/-- When the entry's key is already in the dedup set, the poll loop body is a
no-op. -/
theorem pollDedupStep_seen (s : PageLoadInstrumentation) (e : ResourceEntry)
    (h : s.resourceEntriesSet.contains (getResourceEntryKey e) = true) :
    pollDedupStep s e = s := by
  simp only [pollDedupStep]
  exact if_pos h

/-- When the entry's key is not yet in the dedup set, the poll loop body emits
the span and records the key. -/
theorem pollDedupStep_unseen (s : PageLoadInstrumentation) (e : ResourceEntry)
    (h : ¬s.resourceEntriesSet.contains (getResourceEntryKey e) = true) :
    pollDedupStep s e =
      { s with
        emittedSpans := s.emittedSpans ++ [pushResourceTimingToSpan e]
        resourceEntriesSet := s.resourceEntriesSet ++ [getResourceEntryKey e] } := by
  simp only [pollDedupStep]
  exact if_neg h

/-- Invariant of the poll dedup loop: the dedup set is exactly the list of
keys of the spans emitted so far, with no duplicates. -/
theorem pollDedupStep_foldl_inv (entries : List ResourceEntry) :
    ∀ s : PageLoadInstrumentation,
      s.resourceEntriesSet = s.emittedSpans.map emittedSpanKey →
      s.resourceEntriesSet.Nodup →
      (entries.foldl pollDedupStep s).resourceEntriesSet
          = (entries.foldl pollDedupStep s).emittedSpans.map emittedSpanKey ∧
        (entries.foldl pollDedupStep s).resourceEntriesSet.Nodup := by
  induction entries with
  | nil => exact fun s h1 h2 => ⟨h1, h2⟩
  | cons e tl ih =>
    intro s h1 h2
    rw [List.foldl_cons]
    by_cases hc : s.resourceEntriesSet.contains (getResourceEntryKey e) = true
    · rw [pollDedupStep_seen s e hc]
      exact ih s h1 h2
    · have hmem : getResourceEntryKey e ∉ s.resourceEntriesSet := by
        simpa [List.contains] using hc
      rw [pollDedupStep_unseen s e hc]
      apply ih
      · simp [h1, emittedSpanKey_pushResourceTimingToSpan]
      · simp [List.nodup_append, h2, hmem]

/-- One poll cycle preserves the dedup-set / emitted-span invariant. -/
theorem pollResourceTimingEntries_inv (resources : List ResourceEntry)
    (newTimerId : Nat) (s : PageLoadInstrumentation)
    (h1 : s.resourceEntriesSet = s.emittedSpans.map emittedSpanKey)
    (h2 : s.resourceEntriesSet.Nodup) :
    (pollResourceTimingEntries s resources newTimerId).resourceEntriesSet
        = (pollResourceTimingEntries s resources newTimerId).emittedSpans.map
            emittedSpanKey ∧
      (pollResourceTimingEntries s resources newTimerId).resourceEntriesSet.Nodup := by
  unfold pollResourceTimingEntries
  cases ht : s.resourceEntryPollTimeout <;>
    simpa [ht] using
      pollDedupStep_foldl_inv _ _ (by simpa using h1) (by simpa using h2)

/-- Any sequence of poll cycles preserves the dedup-set / emitted-span
invariant. -/
theorem processPollCycles_inv (cycles : List (List ResourceEntry)) :
    ∀ s : PageLoadInstrumentation,
      s.resourceEntriesSet = s.emittedSpans.map emittedSpanKey →
      s.resourceEntriesSet.Nodup →
      (processPollCycles s cycles).resourceEntriesSet
          = (processPollCycles s cycles).emittedSpans.map emittedSpanKey ∧
        (processPollCycles s cycles).resourceEntriesSet.Nodup := by
  induction cycles with
  | nil => exact fun s h1 h2 => ⟨h1, h2⟩
  | cons c tl ih =>
    intro s h1 h2
    have hfold : processPollCycles s (c :: tl)
        = processPollCycles (pollResourceTimingEntries s c 0) tl := rfl
    rw [hfold]
    obtain ⟨g1, g2⟩ := pollResourceTimingEntries_inv c 0 s h1 h2
    exact ih _ g1 g2

/-- C2: under the poll-based fallback strategy, for every sequence of poll
cycles (with arbitrarily overlapping enumerated resource sets), each resource
identity key `(name, startTime, entryType)` yields at most one emitted span
across the instrumentation's lifetime: an entry whose key is already in the
persistent dedup set produces no second span. -/
theorem resourceKey_atMostOneSpan (ignore : List String)
    (cycles : List (List ResourceEntry)) (key : String) :
    ((processPollCycles (mkPageLoadInstrumentation ignore) cycles).emittedSpans.map
        emittedSpanKey).count key ≤ 1 := by
  obtain ⟨h1, h2⟩ :=
    processPollCycles_inv cycles (mkPageLoadInstrumentation ignore) rfl List.nodup_nil
  exact List.nodup_iff_count_le_one.mp (h1 ▸ h2) key

/-- C4 (code bug): `disable()` does not cancel the pending poll timer.  After
a poll cycle armed timer 7, `disable()` leaves `resourceEntryPollTimeout`
still `some 7` — the scheduled poll remains armed — and when that poll later
fires with a newly buffered resource entry it still emits a new span (and
re-arms itself), even though the instrumentation was torn down. -/
theorem disable_doesNotCancelPollTimer :
    (disable (pollResourceTimingEntries (mkPageLoadInstrumentation [])
        [sampleResourceEntryA] 7)).resourceEntryPollTimeout = some 7 ∧
    (pollResourceTimingEntries
        (disable (pollResourceTimingEntries (mkPageLoadInstrumentation [])
          [sampleResourceEntryA] 7))
        [sampleResourceEntryA, sampleResourceEntryB] 8).emittedSpans.length = 2 ∧
    (pollResourceTimingEntries
        (disable (pollResourceTimingEntries (mkPageLoadInstrumentation [])
          [sampleResourceEntryA] 7))
        [sampleResourceEntryA, sampleResourceEntryB] 8).resourceEntryPollTimeout
      = some 8 := by
  refine ⟨rfl, ?_, rfl⟩
  rfl

/-- The observer callback's emission loop appends exactly one span per
delivered (filtered) entry, in order. -/
theorem observerEmitStep_foldl (l : List ResourceEntry) :
    ∀ s : PageLoadInstrumentation,
      (l.foldl observerEmitStep s).emittedSpans
        = s.emittedSpans ++ l.map pushResourceTimingToSpan := by
  induction l with
  | nil => intro s; simp
  | cons e tl ih =>
    intro s
    rw [List.foldl_cons, ih]
    simp [observerEmitStep]

/-- Every span present after the poll dedup loop was either already present
or comes from one of the entries fed to the loop. -/
theorem pollDedupStep_foldl_provenance (l : List ResourceEntry) :
    ∀ (s : PageLoadInstrumentation) (sp : SpanData),
      sp ∈ (l.foldl pollDedupStep s).emittedSpans →
      sp ∈ s.emittedSpans ∨ ∃ e, e ∈ l ∧ sp = pushResourceTimingToSpan e := by
  induction l with
  | nil => exact fun s sp h => Or.inl h
  | cons e tl ih =>
    intro s sp h
    rw [List.foldl_cons] at h
    rcases ih (pollDedupStep s e) sp h with hmem | ⟨f, hf, hsp⟩
    · by_cases hc : s.resourceEntriesSet.contains (getResourceEntryKey e) = true
      · rw [pollDedupStep_seen s e hc] at hmem
        exact Or.inl hmem
      · rw [pollDedupStep_unseen s e hc] at hmem
        simp only [List.mem_append, List.mem_singleton] at hmem
        rcases hmem with h1 | h1
        · exact Or.inl h1
        · exact Or.inr ⟨e, by simp, h1⟩
    · exact Or.inr ⟨f, by simp [hf], hsp⟩

/-- C8: for every configured ignore list, exactly the resource entries whose
URL contains no listed substring survive `getResourcesToTrack`; every span
emitted by the observer strategy comes from a surviving entry (one span per
survivor, in order), every span emitted by a poll cycle comes from a
surviving entry, and on the spec's example `"/api/"` is a substring of
`"https://x/api/foo"` but not of `"https://x/static/bar.js"`. -/
theorem ignoreFiltering_exactlySurvivors :
    (∀ (ignoreResourceUrls : List String) (resources : List ResourceEntry)
        (entry : ResourceEntry),
      entry ∈ getResourcesToTrack ignoreResourceUrls resources ↔
        entry ∈ resources ∧
          ∀ u ∈ ignoreResourceUrls, strIncludes entry.name u = false) ∧
    (∀ (self : PageLoadInstrumentation) (entries : List ResourceEntry),
      (observeResourceTimingsCallback self entries).emittedSpans
        = self.emittedSpans ++
            (getResourcesToTrack self.ignoreResourceUrls entries).map
              pushResourceTimingToSpan) ∧
    (∀ (self : PageLoadInstrumentation) (resources : List ResourceEntry)
        (newTimerId : Nat) (sp : SpanData),
      sp ∈ (pollResourceTimingEntries self resources newTimerId).emittedSpans →
        sp ∈ self.emittedSpans ∨
          ∃ e, e ∈ getResourcesToTrack self.ignoreResourceUrls resources ∧
            sp = pushResourceTimingToSpan e) ∧
    strIncludes "https://x/api/foo" "/api/" = true ∧
    strIncludes "https://x/static/bar.js" "/api/" = false := by
  refine ⟨?_, ?_, ?_, by decide, by decide⟩
  · intro ign res entry
    simp [getResourcesToTrack, List.mem_filter, List.any_eq_true]
  · intro self entries
    exact observerEmitStep_foldl _ self
  · intro self resources newTimerId sp h
    unfold pollResourceTimingEntries at h
    cases ht : self.resourceEntryPollTimeout with
    | none =>
      rw [ht] at h
      exact pollDedupStep_foldl_provenance _ self sp (by simpa using h)
    | some tid =>
      rw [ht] at h
      exact pollDedupStep_foldl_provenance _
        { self with resourceEntryPollTimeout := none } sp (by simpa using h)

/-- String concatenation is associative. -/
theorem strAppendAssoc : ∀ a b c : String, (a ++ b) ++ c = a ++ (b ++ c) :=
  fun ⟨a⟩ ⟨b⟩ ⟨c⟩ => congrArg String.mk (List.append_assoc a b c)

/-- Concatenating a separator-led (or empty) parent label with a separator and
an element label yields a separator-led label. -/
theorem string_append_sepLed (p n : String)
    (hp : p = "" ∨ ∃ q, p = " > " ++ q) :
    ∃ rest, (p ++ " > ") ++ n = " > " ++ rest := by
  rcases hp with rfl | ⟨q, rfl⟩
  · exact ⟨n, rfl⟩
  · refine ⟨(q ++ " > ") ++ n, ?_⟩
    rw [strAppendAssoc " > " q " > ", strAppendAssoc " > " (q ++ " > ") n]

/-- A label of the shape `x ++ ((y ++ ":") ++ "null")` ends in the literal
text `":null"`. -/
theorem string_append_nullSuffix (x y : String) :
    ∃ pre, x ++ ((y ++ ":") ++ "null") = pre ++ ":null" := by
  refine ⟨x ++ y, ?_⟩
  rw [strAppendAssoc y ":" "null"]
  rw [show (":" : String) ++ "null" = ":null" from rfl]
  rw [← strAppendAssoc x y ":null"]

/-- Above depth 3 the element namer gives up and returns the empty string. -/
theorem getElementName_gt3 (e : DomElement) (d : Nat) (hd : d > 3) :
    getElementName (some e) d = "" := by
  cases e with
  | mk t i c dt p =>
    simp only [getElementName]
    rw [if_pos hd]

/-- Below an allowed depth `d` with `d + n = 3`, the element namer reads at
most `n` ancestors: truncating the ancestor chain after `n` ancestors does not
change the result. -/
theorem getElementName_truncate :
    ∀ (n : Nat) (e : DomElement) (d : Nat), d + n = 3 →
      getElementName (some (truncateAncestors n e)) d = getElementName (some e) d := by
  intro n
  induction n with
  | zero =>
    intro e d hd
    obtain rfl : d = 3 := by omega
    cases e with
    | mk t i c dt p =>
      cases p with
      | none => rfl
      | some q =>
        cases q with
        | mk qt qi qc qdt qp =>
          simp [getElementName, truncateAncestors]
  | succ n ih =>
    intro e d hd
    cases e with
    | mk t i c dt p =>
      cases p with
      | none => rfl
      | some q =>
        have hq := ih q (d + 1) (by omega)
        simp only [truncateAncestors, Option.map_some']
        simp only [getElementName]
        rw [hq]

/-- C9: the element namer returns `""` when the element is absent or the
caller-supplied depth exceeds 3; consequently for any element — in particular
one nested 10 ancestors deep — the label only contains contributions from the
element and at most 3 ancestors (depths 0 through 3): truncating every deeper
ancestor leaves the label unchanged, and the bounded recursion is total. -/
theorem getElementName_depthBounded :
    (∀ depth, getElementName none depth = "") ∧
    (∀ (e : DomElement) (depth : Nat), depth > 3 →
      getElementName (some e) depth = "") ∧
    (∀ e : DomElement,
      getElementName (some e) 0 = getElementName (some (truncateAncestors 3 e)) 0) := by
  refine ⟨fun depth => by simp [getElementName], getElementName_gt3, ?_⟩
  intro e
  exact (getElementName_truncate 3 e 0 rfl).symm

/-- Witness for C9 at concrete inputs: a missing element names to `""`, depth
4 names to `""` even on a ten-deep chain, and the ten-deep chain's label
equals the label of the chain truncated after 3 ancestors. -/
theorem getElementName_depthBounded_witness :
    getElementName none 0 = "" ∧
    getElementName (some (deepChain 10)) 4 = "" ∧
    getElementName (some (deepChain 10)) 0
      = getElementName (some (truncateAncestors 3 (deepChain 10))) 0 :=
  ⟨getElementName_depthBounded.1 0,
    getElementName_depthBounded.2.1 (deepChain 10) 4 (by decide),
    getElementName_depthBounded.2.2 (deepChain 10)⟩

/-- At any allowed depth the element namer's label starts with the separator
`" > "`: the parent contribution is either empty (missing parent, or parent
past the depth bound) — in which case the separator is still prepended — or
itself separator-led.  The fuel `k` bounds the remaining allowed depth. -/
theorem getElementName_sepLed :
    ∀ (k : Nat) (e : DomElement) (d : Nat), d ≤ 3 → 3 - d ≤ k →
      ∃ rest, getElementName (some e) d = " > " ++ rest := by
  intro k
  induction k with
  | zero =>
    intro e d hd hk
    obtain rfl : d = 3 := by omega
    cases e with
    | mk t i c dt p =>
      simp only [getElementName]
      rw [if_neg (by omega : ¬(3 : Nat) > 3)]
      apply string_append_sepLed
      cases p with
      | none => exact Or.inl (by simp [getElementName])
      | some q => exact Or.inl (getElementName_gt3 q 4 (by omega))
  | succ n ih =>
    intro e d hd hk
    cases e with
    | mk t i c dt p =>
      simp only [getElementName]
      rw [if_neg (by omega : ¬d > 3)]
      apply string_append_sepLed
      cases p with
      | none => exact Or.inl (by simp [getElementName])
      | some q =>
        by_cases hd3 : d = 3
        · subst hd3
          exact Or.inl (getElementName_gt3 q 4 (by omega))
        · exact Or.inr (ih q (d + 1) (by omega) (by omega))

/-- C10: for every present element at an allowed depth, the label starts with
the separator `" > "` even when the parent contribution is empty, and when the
element carries no `data-testid` attribute the label ends in the literal text
`":null"` instead of omitting the test-id segment. -/
theorem getElementName_sepAndNullTestId (e : DomElement) (d : Nat) (hd : d ≤ 3) :
    (∃ rest, getElementName (some e) d = " > " ++ rest) ∧
    (e.dataTestId = none → ∃ pre, getElementName (some e) d = pre ++ ":null") := by
  refine ⟨getElementName_sepLed (3 - d) e d hd (le_refl _), ?_⟩
  intro ht
  cases e with
  | mk t i c dt p =>
    simp only [DomElement.dataTestId] at ht
    subst ht
    simp only [getElementName, jsTemplateNull]
    rw [if_neg (by omega : ¬d > 3)]
    apply string_append_nullSuffix

/-- Witness for C10 at a concrete input: a lone `DIV` with no id, class, or
`data-testid`, named at depth 0, yields a label that starts with `" > "` and
ends with `":null"`. -/
theorem getElementName_sepAndNullTestId_witness :
    (∃ rest, getElementName (some sampleElementNoTestId) 0 = " > " ++ rest) ∧
    (∃ pre, getElementName (some sampleElementNoTestId) 0 = pre ++ ":null") := by
  have h := getElementName_sepAndNullTestId sampleElementNoTestId 0 (by decide)
  exact ⟨h.1, h.2 rfl⟩

/-- Witness for C8 at concrete inputs: the span present after a poll cycle
over `[sampleResourceEntryA]` with an empty ignore list comes from a
filter-surviving entry. -/
theorem ignoreFiltering_exactlySurvivors_witness :
    pushResourceTimingToSpan sampleResourceEntryA
        ∈ (mkPageLoadInstrumentation []).emittedSpans ∨
      ∃ e, e ∈ getResourcesToTrack
            (mkPageLoadInstrumentation []).ignoreResourceUrls [sampleResourceEntryA] ∧
        pushResourceTimingToSpan sampleResourceEntryA = pushResourceTimingToSpan e :=
  ignoreFiltering_exactlySurvivors.2.2.1 (mkPageLoadInstrumentation [])
    [sampleResourceEntryA] 3 (pushResourceTimingToSpan sampleResourceEntryA)
    (by decide)
